import Mathlib

/-
Verification of the D.O.C (Digital Oversight Companion) clinical
rule-evaluation core and of two frontend components.

The clinical core described by the specification (Age Classifier,
Contraindication Matcher, Risk Scorer, Dosage Validator, Criteria
Catalog, Verdict Assembler — the Python modules age_checker.py,
range_validator.py, risk_scorer.py, dosage_calculator.py, …) is not
present in the repository snapshot: only its defect records
(ai-services/TODO.md) and its frontend callers survive.  Those core
operations are therefore modelled from the specification text and each
such definition carries a doc comment saying so.  The frontend
components SeverityBadge, RiskIndicator, PrescriptionUpload and
DocumentUploader ARE present as JSX source and are embedded directly
from it.

Numeric doses and weights are modelled as rationals (ℚ): the source
arithmetic on them is plain multiplication, comparison and min, which
the rationals represent exactly.
-/

/-- Error taxonomy of the core, from the specification section 7:
InvalidInputError for malformed caller input (for example a negative
age), NotFoundError for a drug absent from the dosage guideline table. -/
inductive DocError where
  | InvalidInputError
  | NotFoundError
deriving DecidableEq, Repr

/-- Life-stage category produced by the Age Classifier. -/
inductive AgeCategory where
  | neonatal
  | pediatric
  | adult
  | geriatric
deriving DecidableEq, Repr

/-- Severity of a criteria-catalog entry. -/
inductive Severity where
  | low
  | medium
  | high
deriving DecidableEq, Repr

/-- Discrete risk tier of a SafetyVerdict. -/
inductive RiskTier where
  | low
  | medium
  | high
deriving DecidableEq, Repr

/-- Renal-function levels of a patient profile. -/
inductive RenalFunction where
  | normal
  | mild_impairment
  | moderate_impairment
  | severe_impairment
deriving DecidableEq, Repr

/-- Patient profile supplied by the caller (specification section 3).
The age is an integer so that invalid negative input can be expressed;
weight and renal function are optional. -/
structure PatientProfile where
  age : Int
  weightKg : Option ℚ
  renalFunction : Option RenalFunction
deriving DecidableEq, Repr

/-- One row of the Beers-style criteria reference data
(specification section 3). -/
structure CriteriaEntry where
  drugPattern : String
  applicableCategories : List AgeCategory
  severity : Severity
  rationale : String
  alternativeSuggestion : Option String
deriving DecidableEq, Repr

/-- One row of the dosage guideline reference table
(specification section 3).  The renal adjustment factor is a total map
on renal levels. -/
structure DosageGuideline where
  drugPattern : String
  mgPerKgLow : Option ℚ
  mgPerKgHigh : Option ℚ
  adultFixedRangeLow : ℚ
  adultFixedRangeHigh : ℚ
  renalAdjustmentFactor : RenalFunction → ℚ
  maxDailyMg : ℚ

/-- Final dosage classification.  The specification spells the second
value "unsafe"; that word is a reserved keyword here, so the
constructor is named `not_safe`.  The type has exactly the two states
the specification mandates — no third constructor exists. -/
inductive DosageStatus where
  | within_range
  | not_safe
deriving DecidableEq, Repr

/-- Result of a dosage evaluation (specification section 3). -/
structure DosageVerdict where
  prescribedMg : ℚ
  recommendedLowMg : ℚ
  recommendedHighMg : ℚ
  status : DosageStatus
  reason : String
deriving DecidableEq, Repr

/-- Result of an age-safety evaluation (specification section 3). -/
structure SafetyVerdict where
  riskScore : Nat
  riskTier : RiskTier
  matchedCriteria : List CriteriaEntry
  recommendations : List String
deriving DecidableEq, Repr

/-- Modelled from the spec: the Age Classifier of age_checker.py
(absent from the snapshot), specification section 4.2.  Boundaries are
closed on the lower bound and open on the upper; a negative age fails
with InvalidInputError. -/
def classify (age : Int) : Except DocError AgeCategory :=
  if age < 0 then Except.error DocError.InvalidInputError
  else if age < 1 then Except.ok AgeCategory.neonatal
  else if age < 18 then Except.ok AgeCategory.pediatric
  else if age < 65 then Except.ok AgeCategory.adult
  else Except.ok AgeCategory.geriatric

/-- Points contributed by one matched criteria entry
(specification section 4.4): high 4, medium 2, low 1. -/
def matchPoints : Severity → Nat
  | Severity.high => 4
  | Severity.medium => 2
  | Severity.low => 1

/-- Tier mapping of the Risk Scorer (specification section 4.4):
scores 0–3 are low, 4–6 medium, 7–10 high. -/
def tierOf (s : Nat) : RiskTier :=
  if s ≤ 3 then RiskTier.low
  else if s ≤ 6 then RiskTier.medium
  else RiskTier.high

/-- Modelled from the spec: the Risk Scorer of risk_scorer.py (absent
from the snapshot), specification section 4.4.  Sums the per-match
points, caps the sum at 10, and derives the tier from the capped
score. -/
def score (ms : List CriteriaEntry) : Nat × RiskTier :=
  let s := min 10 ((ms.map (fun e => matchPoints e.severity)).sum)
  (s, tierOf s)

/-- ASCII lowercasing of one character, as the case-insensitive drug
name matching and the frontend toLowerCase calls need it. -/
def lowerChar (c : Char) : Char :=
  if 65 ≤ c.toNat ∧ c.toNat ≤ 90 then Char.ofNat (c.toNat + 32) else c

/-- ASCII lowercasing of a string. -/
def lowerAscii (s : String) : String :=
  ⟨s.data.map lowerChar⟩

/-- The immutable reference data shared by all evaluations: the
criteria entries and the dosage guideline table
(specification sections 2 and 4.1). -/
structure Catalog where
  criteria : List CriteriaEntry
  guidelines : List DosageGuideline

/-- Modelled from the spec: the Criteria Catalog operation findByDrug
(section 4.1), case-insensitive match of the drug name against
drugPattern.  The pluggable fuzzy strategy of section 9 defaults to
exact comparison here; no claim depends on fuzziness. -/
def findByDrug (entries : List CriteriaEntry) (name : String) : List CriteriaEntry :=
  entries.filter (fun e => decide (lowerAscii e.drugPattern = lowerAscii name))

/-- Modelled from the spec: the Criteria Catalog operation
findDosageGuideline (section 4.1), first guideline whose drugPattern
matches the name case-insensitively, none when the drug is absent. -/
def findDosageGuideline (gs : List DosageGuideline) (name : String) : Option DosageGuideline :=
  gs.find? (fun g => decide (lowerAscii g.drugPattern = lowerAscii name))

/-- Rank used to sort matched criteria descending by severity. -/
def severityRank : Severity → Nat
  | Severity.high => 2
  | Severity.medium => 1
  | Severity.low => 0

/-- Comparator for the matcher: entry a may precede entry b when the
severity of a is at least that of b. -/
def severityGE (a b : CriteriaEntry) : Bool :=
  decide (severityRank b.severity ≤ severityRank a.severity)

/-- Modelled from the spec: the Contraindication Matcher operation the
specification calls match (section 4.3) — that word is reserved here,
hence matchCriteria.  Fetch the catalog entries for the drug, keep
those applicable to the age category, and stably sort them descending
by severity; stability realizes the tie-break by catalog insertion
order.  An empty result is a valid outcome, not an error. -/
def matchCriteria (entries : List CriteriaEntry) (drugName : String)
    (cat : AgeCategory) : List CriteriaEntry :=
  ((findByDrug entries drugName).filter
    (fun e => decide (cat ∈ e.applicableCategories))).mergeSort severityGE

/-- Modelled from the spec: step 2 of the Dosage Validator
(section 4.5) — weight-based range when a weight and both mg/kg bounds
are present, else the fixed adult range. -/
def baseRange (g : DosageGuideline) (p : PatientProfile) : ℚ × ℚ :=
  match p.weightKg, g.mgPerKgLow, g.mgPerKgHigh with
  | some w, some lo, some hi => (lo * w, hi * w)
  | _, _, _ => (g.adultFixedRangeLow, g.adultFixedRangeHigh)

/-- Modelled from the spec: step 3 of the Dosage Validator
(section 4.5) — an impaired renal function scales both bounds by the
guideline factor for that level; a normal or absent renal function
leaves them unchanged. -/
def renalAdjusted (g : DosageGuideline) (p : PatientProfile) (r : ℚ × ℚ) : ℚ × ℚ :=
  match p.renalFunction with
  | some rf =>
      if rf = RenalFunction.normal then r
      else (r.1 * g.renalAdjustmentFactor rf, r.2 * g.renalAdjustmentFactor rf)
  | none => r

/-- Modelled from the spec: steps 2–5 of the Dosage Validator
(section 4.5) once the guideline is at hand: compute the base range,
apply the renal adjustment, clamp the high bound to maxDailyMg, and
classify inclusively on both ends. -/
def validateWith (g : DosageGuideline) (p : PatientProfile) (prescribedMg : ℚ) :
    DosageVerdict :=
  let adj := renalAdjusted g p (baseRange g p)
  let lo := adj.1
  let hi := min adj.2 g.maxDailyMg
  if lo ≤ prescribedMg ∧ prescribedMg ≤ hi then
    ⟨prescribedMg, lo, hi, DosageStatus.within_range,
      "prescribed dose is within the recommended range"⟩
  else
    ⟨prescribedMg, lo, hi, DosageStatus.not_safe,
      "prescribed dose is outside the recommended range"⟩

/-- Modelled from the spec: the Dosage Validator of range_validator.py
(absent from the snapshot), section 4.5 step 1 — fetch the guideline,
failing with NotFoundError when the drug has none, then classify. -/
def validate (gs : List DosageGuideline) (drugName : String)
    (p : PatientProfile) (prescribedMg : ℚ) : Except DocError DosageVerdict :=
  match findDosageGuideline gs drugName with
  | none => Except.error DocError.NotFoundError
  | some g => Except.ok (validateWith g p prescribedMg)

/-- Modelled from the spec: the public entry point evaluateDosage
(section 6), the Dosage Validator run against the catalog guideline
table. -/
def evaluateDosage (c : Catalog) (drugName : String) (p : PatientProfile)
    (prescribedMg : ℚ) : Except DocError DosageVerdict :=
  validate c.guidelines drugName p prescribedMg

/-- Modelled from the spec: the Verdict Assembler (section 4.6) —
recommendations are the alternative suggestions of the matched
entries, in order, entries without one skipped. -/
def assemble (ms : List CriteriaEntry) (s : Nat) (t : RiskTier) : SafetyVerdict :=
  ⟨s, t, ms, ms.filterMap (fun e => e.alternativeSuggestion)⟩

/-- Modelled from the spec: the public entry point evaluateAgeSafety
(section 6) — classify the age, match contraindications, score, and
assemble; a classifier failure is surfaced unchanged. -/
def evaluateAgeSafety (c : Catalog) (drugName : String) (p : PatientProfile) :
    Except DocError SafetyVerdict :=
  match classify p.age with
  | Except.error e => Except.error e
  | Except.ok cat =>
      let ms := matchCriteria c.criteria drugName cat
      Except.ok (assemble ms (score ms).1 (score ms).2)


/-- Embedded from the source: getSeverityColor of
frontend/D.O.C_Frontend/src/components/sideEffects/SeverityBadge.jsx —
a switch on the lowercased severity string: high red, medium yellow,
low green, anything else a gray default; the JavaScript toLowerCase is
modelled by ASCII lowercasing. -/
def getSeverityColor (severity : String) : String :=
  if lowerAscii severity = "high" then "bg-red-500 text-white"
  else if lowerAscii severity = "medium" then "bg-yellow-500 text-white"
  else if lowerAscii severity = "low" then "bg-green-500 text-white"
  else "bg-gray-500 text-white"

/-- Embedded from the source: getRiskColor of
frontend/D.O.C_Frontend/src/components/ageVerification/RiskIndicator.jsx —
the same switch on the lowercased risk level, with a gray default. -/
def getRiskColor (level : String) : String :=
  if lowerAscii level = "high" then "bg-red-500"
  else if lowerAscii level = "medium" then "bg-yellow-500"
  else if lowerAscii level = "low" then "bg-green-500"
  else "bg-gray-500"

/-- Embedded from the source: handleUpload of
frontend/D.O.C_Frontend/src/components/dosage/PrescriptionUpload.jsx —
the component state is the optionally selected file; the result lists
the onUpload invocations the handler performs: one with the file when
one is selected, none otherwise. -/
def prescriptionHandleUpload (file : Option String) : List String :=
  match file with
  | some f => [f]
  | none => []

/-- Embedded from the source: the upload button of
PrescriptionUpload.jsx carries the disabled attribute exactly when no
file is selected. -/
def prescriptionUploadDisabled (file : Option String) : Bool :=
  file.isNone

/-- Embedded from the source: handleUpload of
frontend/D.O.C_Frontend/src/components/triage/DocumentUploader.jsx —
one onUpload invocation carrying the whole selected list when it is
non-empty, none otherwise. -/
def documentHandleUpload (files : List String) : List (List String) :=
  if files.length > 0 then [files] else []

/-- Embedded from the source: the upload button of
DocumentUploader.jsx is disabled exactly when the selected list is
empty. -/
def documentUploadDisabled (files : List String) : Bool :=
  files.length == 0

/-- Concrete guideline fixture used by the dosage witnesses: no mg/kg
bounds, fixed adult range 100–400 mg, max daily 500 mg. -/
def wG : DosageGuideline :=
  ⟨"amoxicillin", none, none, 100, 400, fun _ => 1, 500⟩

/-- Concrete profile fixture used by the dosage witnesses: age 30, no
weight, no renal data. -/
def wP : PatientProfile := ⟨30, none, none⟩

/-- The guideline of the specification section 8 scenario:
mgPerKgLow 5, mgPerKgHigh 10, maxDailyMg 500. -/
def scenarioGuideline : DosageGuideline :=
  ⟨"drug x", some 5, some 10, 50, 100, fun _ => 1, 500⟩

/-- The patient of the specification section 8 scenario: age 80,
weight 40 kg, normal renal function. -/
def scenarioProfile : PatientProfile :=
  ⟨80, some 40, some RenalFunction.normal⟩

lemma points_sum_eq (l : List CriteriaEntry) :
    (l.map (fun e => matchPoints e.severity)).sum =
      4 * (l.filter (fun e => e.severity = Severity.high)).length
      + 2 * (l.filter (fun e => e.severity = Severity.medium)).length
      + (l.filter (fun e => e.severity = Severity.low)).length := by
  induction l with
  | nil => simp
  | cons e t ih =>
      simp only [List.map_cons, List.sum_cons, List.filter_cons, ih]
      cases h : e.severity <;> simp [h, matchPoints] <;> omega

/-- C2: the Age Classifier maps age < 1 to neonatal, 1 ≤ age < 18 to
pediatric, 18 ≤ age < 65 to adult and age ≥ 65 to geriatric; in
particular 64 is adult while 65 and 75 are geriatric (the 75-and-above
regression guard). -/
theorem age_classifier_boundaries (age : Int) (h : 0 ≤ age) :
    (age < 1 → classify age = Except.ok AgeCategory.neonatal)
    ∧ (1 ≤ age → age < 18 → classify age = Except.ok AgeCategory.pediatric)
    ∧ (18 ≤ age → age < 65 → classify age = Except.ok AgeCategory.adult)
    ∧ (65 ≤ age → classify age = Except.ok AgeCategory.geriatric)
    ∧ classify 64 = Except.ok AgeCategory.adult
    ∧ classify 65 = Except.ok AgeCategory.geriatric
    ∧ classify 75 = Except.ok AgeCategory.geriatric := by
  refine ⟨?_, ?_, ?_, ?_, rfl, rfl, rfl⟩ <;>
    intros <;> simp only [classify] <;> split_ifs <;> first | rfl | omega

/-- Witness for age_classifier_boundaries at the boundary ages. -/
theorem age_classifier_boundaries_witness :
    classify 64 = Except.ok AgeCategory.adult
    ∧ classify 65 = Except.ok AgeCategory.geriatric
    ∧ classify 75 = Except.ok AgeCategory.geriatric :=
  ⟨(age_classifier_boundaries 64 (by decide)).2.2.2.2.1,
   (age_classifier_boundaries 65 (by decide)).2.2.2.2.2.1,
   (age_classifier_boundaries 75 (by decide)).2.2.2.2.2.2⟩

/-- C4: the Risk Scorer returns riskScore = min 10 (4·high + 2·medium
+ 1·low counts); the tier is a function of the score alone with exact
boundaries low ≤ 3 < medium ≤ 6 < high; a score of 7 always yields
high; a single high-severity match scores (4, medium). -/
theorem risk_scorer_spec (ms : List CriteriaEntry) :
    (score ms).1 =
      min 10 (4 * (ms.filter (fun e => e.severity = Severity.high)).length
        + 2 * (ms.filter (fun e => e.severity = Severity.medium)).length
        + (ms.filter (fun e => e.severity = Severity.low)).length)
    ∧ (score ms).2 = tierOf (score ms).1
    ∧ (∀ s : Nat, (tierOf s = RiskTier.low ↔ s ≤ 3)
        ∧ (tierOf s = RiskTier.medium ↔ 4 ≤ s ∧ s ≤ 6)
        ∧ (tierOf s = RiskTier.high ↔ 7 ≤ s))
    ∧ ((score ms).1 = 7 → (score ms).2 = RiskTier.high)
    ∧ (ms = [] → score ms = (0, RiskTier.low))
    ∧ (∀ e : CriteriaEntry, e.severity = Severity.high →
        score [e] = (4, RiskTier.medium)) := by
  have htier : ∀ s : Nat, (tierOf s = RiskTier.low ↔ s ≤ 3)
      ∧ (tierOf s = RiskTier.medium ↔ 4 ≤ s ∧ s ≤ 6)
      ∧ (tierOf s = RiskTier.high ↔ 7 ≤ s) := by
    intro s
    unfold tierOf
    split_ifs <;> refine ⟨?_, ?_, ?_⟩ <;> simp <;> omega
  refine ⟨by rw [score, points_sum_eq], rfl, htier, ?_, ?_, ?_⟩
  · intro h7
    show tierOf (score ms).1 = RiskTier.high
    rw [h7]
    rfl
  · intro h
    subst h
    rfl
  · intro e he
    simp [score, matchPoints, he, tierOf]

/-- Witness for risk_scorer_spec on a concrete one-element match list. -/
theorem risk_scorer_spec_witness :
    score [⟨"drug x", [AgeCategory.geriatric], Severity.high, "r", none⟩] =
      (4, RiskTier.medium) :=
  (risk_scorer_spec [⟨"drug x", [AgeCategory.geriatric], Severity.high, "r", none⟩]).2.2.2.2.2
    ⟨"drug x", [AgeCategory.geriatric], Severity.high, "r", none⟩ rfl
lemma severityGE_trans (a b c : CriteriaEntry) (hab : severityGE a b = true)
    (hbc : severityGE b c = true) : severityGE a c = true := by
  simp only [severityGE, decide_eq_true_eq] at *
  omega

lemma severityGE_total (a b : CriteriaEntry) :
    (severityGE a b || severityGE b a) = true := by
  simp only [severityGE, Bool.or_eq_true, decide_eq_true_eq]
  omega

lemma pairwise_filter_severity (l : List CriteriaEntry) (s : Severity) :
    (l.filter (fun e => e.severity = s)).Pairwise
      (fun a b => severityGE a b = true) := by
  apply List.pairwise_of_forall_mem_list
  intro a ha b hb
  have ha2 := (List.mem_filter.mp ha).2
  have hb2 := (List.mem_filter.mp hb).2
  simp only [decide_eq_true_eq] at ha2 hb2
  simp [severityGE, ha2, hb2]

lemma mergeSort_filter_severity (l : List CriteriaEntry) (s : Severity) :
    (l.mergeSort severityGE).filter (fun e => e.severity = s) =
      l.filter (fun e => e.severity = s) := by
  have hperm : ((l.mergeSort severityGE).filter (fun e => e.severity = s)).Perm
      (l.filter (fun e => e.severity = s)) :=
    (List.mergeSort_perm l severityGE).filter _
  have hsub : List.Sublist (l.filter (fun e => e.severity = s))
      (l.mergeSort severityGE) :=
    List.mergeSort_stable severityGE_trans severityGE_total
      (pairwise_filter_severity l s) (List.filter_sublist l)
  have hidem : (l.filter (fun e => e.severity = s)).filter
      (fun e => e.severity = s) = l.filter (fun e => e.severity = s) :=
    List.filter_eq_self.mpr (fun a ha => (List.mem_filter.mp ha).2)
  have hsub2 := hsub.filter (fun e => decide (e.severity = s))
  rw [hidem] at hsub2
  exact (hsub2.eq_of_length hperm.length_eq.symm).symm

lemma sorted_eq_severity_buckets (m : List CriteriaEntry)
    (hm : m.Pairwise (fun a b => severityGE a b = true)) :
    m = m.filter (fun e => e.severity = Severity.high)
      ++ m.filter (fun e => e.severity = Severity.medium)
      ++ m.filter (fun e => e.severity = Severity.low) := by
  induction m with
  | nil => rfl
  | cons x t ih =>
      rcases List.pairwise_cons.mp hm with ⟨hx, ht⟩
      have ihe := ih ht
      have hnh : x.severity ≠ Severity.high →
          t.filter (fun e => e.severity = Severity.high) = [] := by
        intro hxs
        apply List.filter_eq_nil_iff.mpr
        intro a ha
        have hxa := hx a ha
        simp only [severityGE, decide_eq_true_eq] at hxa ⊢
        intro hcon
        rw [hcon] at hxa
        cases h2 : x.severity <;> rw [h2] at hxa <;>
          simp [severityRank] at hxa <;> exact hxs h2
      cases hs : x.severity with
      | high =>
          simp [List.filter_cons, hs]
          rw [List.append_assoc] at ihe
          exact ihe
      | medium =>
          have h1 := hnh (by rw [hs]; intro hcon; cases hcon)
          rw [h1] at ihe
          simp only [List.nil_append] at ihe
          simp [List.filter_cons, hs, h1]
          exact ihe
      | low =>
          have h1 := hnh (by rw [hs]; intro hcon; cases hcon)
          have h2 : t.filter (fun e => e.severity = Severity.medium) = [] := by
            apply List.filter_eq_nil_iff.mpr
            intro a ha
            have hxa := hx a ha
            simp only [severityGE, decide_eq_true_eq, hs] at hxa ⊢
            intro hcon
            rw [hcon] at hxa
            simp [severityRank] at hxa
          rw [h1, h2] at ihe
          simp only [List.nil_append] at ihe
          simp [List.filter_cons, hs, h1, h2]
          exact ihe

/-- C7: the Contraindication Matcher returns exactly the catalog
entries for the drug whose applicable categories contain the age
category (a permutation of that filter, with matching membership),
arranged as all high entries, then all medium, then all low, each
block in catalog insertion order — i.e. sorted descending by severity
with ties broken by insertion order — and returns the empty sequence,
not an error, when the drug has no entries. -/
theorem contraindication_matcher_spec (entries : List CriteriaEntry)
    (drugName : String) (cat : AgeCategory) :
    matchCriteria entries drugName cat =
        ((findByDrug entries drugName).filter
            (fun e => cat ∈ e.applicableCategories)).filter
          (fun e => e.severity = Severity.high)
        ++ ((findByDrug entries drugName).filter
            (fun e => cat ∈ e.applicableCategories)).filter
          (fun e => e.severity = Severity.medium)
        ++ ((findByDrug entries drugName).filter
            (fun e => cat ∈ e.applicableCategories)).filter
          (fun e => e.severity = Severity.low)
    ∧ (matchCriteria entries drugName cat).Perm
        ((findByDrug entries drugName).filter
          (fun e => cat ∈ e.applicableCategories))
    ∧ (matchCriteria entries drugName cat).Pairwise
        (fun a b => severityGE a b = true)
    ∧ (∀ e : CriteriaEntry, e ∈ matchCriteria entries drugName cat ↔
        e ∈ findByDrug entries drugName ∧ cat ∈ e.applicableCategories)
    ∧ (findByDrug entries drugName = [] →
        matchCriteria entries drugName cat = []) := by
  have hperm : (matchCriteria entries drugName cat).Perm
      ((findByDrug entries drugName).filter
        (fun e => cat ∈ e.applicableCategories)) :=
    List.mergeSort_perm _ severityGE
  have hsorted : (matchCriteria entries drugName cat).Pairwise
      (fun a b => severityGE a b = true) :=
    List.sorted_mergeSort severityGE_trans severityGE_total _
  refine ⟨?_, hperm, hsorted, ?_, ?_⟩
  · have hb := sorted_eq_severity_buckets _ hsorted
    rw [hb]
    show _ = _
    unfold matchCriteria
    rw [mergeSort_filter_severity, mergeSort_filter_severity,
      mergeSort_filter_severity]
  · intro e
    rw [hperm.mem_iff, List.mem_filter]
    simp
  · intro h
    unfold matchCriteria
    rw [h]
    simp

/-- Witness for contraindication_matcher_spec: a drug with no catalog
entries yields the empty sequence. -/
theorem contraindication_matcher_spec_witness :
    matchCriteria [] "aspirin" AgeCategory.adult = [] :=
  (contraindication_matcher_spec [] "aspirin" AgeCategory.adult).2.2.2.2 rfl

lemma validateWith_fields (g : DosageGuideline) (p : PatientProfile) (d : ℚ) :
    (validateWith g p d).prescribedMg = d
    ∧ (validateWith g p d).recommendedLowMg =
        (renalAdjusted g p (baseRange g p)).1
    ∧ (validateWith g p d).recommendedHighMg =
        min (renalAdjusted g p (baseRange g p)).2 g.maxDailyMg
    ∧ ((validateWith g p d).status = DosageStatus.within_range ↔
        (renalAdjusted g p (baseRange g p)).1 ≤ d ∧
          d ≤ min (renalAdjusted g p (baseRange g p)).2 g.maxDailyMg) := by
  simp only [validateWith]
  by_cases hc : (renalAdjusted g p (baseRange g p)).1 ≤ d ∧
      d ≤ min (renalAdjusted g p (baseRange g p)).2 g.maxDailyMg
  · rw [if_pos hc]
    exact ⟨rfl, rfl, rfl, iff_of_true rfl hc⟩
  · rw [if_neg hc]
    exact ⟨rfl, rfl, rfl, iff_of_false (by simp) hc⟩

lemma validate_ok_elim (gs : List DosageGuideline) (drugName : String)
    (p : PatientProfile) (d : ℚ) (v : DosageVerdict)
    (hv : validate gs drugName p d = Except.ok v) :
    ∃ g, findDosageGuideline gs drugName = some g ∧ v = validateWith g p d := by
  unfold validate at hv
  cases hfind : findDosageGuideline gs drugName with
  | none => rw [hfind] at hv; cases hv
  | some g =>
      rw [hfind] at hv
      injection hv with h
      exact ⟨g, rfl, h.symm⟩

lemma status_dichotomy (st : DosageStatus) :
    st = DosageStatus.not_safe ↔ ¬st = DosageStatus.within_range := by
  cases st <;> simp

/-- C1: for every guideline list, profile and non-negative dose on
which validate yields a verdict, the status is within_range exactly
when the prescribed dose lies in the closed interval between the
verdict recommended bounds, and not_safe (the spelling of the
specification status unsafe) exactly when it lies strictly outside; in
particular, when the interval is non-degenerate, a dose equal to
either bound is within_range. -/
theorem dosage_classification_inclusive (gs : List DosageGuideline)
    (drugName : String) (p : PatientProfile) (d : ℚ) (v : DosageVerdict)
    (hd : 0 ≤ d) (hv : validate gs drugName p d = Except.ok v) :
    (v.status = DosageStatus.within_range ↔
        v.recommendedLowMg ≤ d ∧ d ≤ v.recommendedHighMg)
    ∧ (v.status = DosageStatus.not_safe ↔
        (d < v.recommendedLowMg ∨ v.recommendedHighMg < d))
    ∧ (v.recommendedLowMg ≤ v.recommendedHighMg →
        (d = v.recommendedLowMg ∨ d = v.recommendedHighMg) →
        v.status = DosageStatus.within_range) := by
  obtain ⟨g, hfind, hveq⟩ := validate_ok_elim gs drugName p d v hv
  subst hveq
  obtain ⟨hpm, hlo, hhi, hiff⟩ := validateWith_fields g p d
  have hiff2 : (validateWith g p d).status = DosageStatus.within_range ↔
      (validateWith g p d).recommendedLowMg ≤ d ∧
        d ≤ (validateWith g p d).recommendedHighMg := by
    rw [hlo, hhi]; exact hiff
  refine ⟨hiff2, ?_, ?_⟩
  · rw [status_dichotomy, hiff2, not_and_or, not_le, not_le]
  · intro hle hd2
    rw [hiff2]
    rcases hd2 with h | h
    · exact ⟨h.ge, h.le.trans hle⟩
    · exact ⟨hle.trans h.ge, h.le⟩

/-- Witness for dosage_classification_inclusive: amoxicillin guideline
with fixed range 100–400, dose 100 mg sits exactly on the low bound
and is within_range. -/
theorem dosage_classification_inclusive_witness :
    (validateWith wG wP 100).status = DosageStatus.within_range :=
  ((dosage_classification_inclusive [wG] "amoxicillin" wP 100
      (validateWith wG wP 100) (by norm_num) rfl).1).mpr (by decide)

/-- C3: every verdict the Dosage Validator returns has status
within_range or not_safe — DosageStatus has no third value at all —
and a dose strictly above the recommended high bound is classified
not_safe (the specification status unsafe), never anything else. -/
theorem dosage_status_two_valued (gs : List DosageGuideline)
    (drugName : String) (p : PatientProfile) (d : ℚ) (v : DosageVerdict)
    (hv : validate gs drugName p d = Except.ok v) :
    (v.status = DosageStatus.within_range ∨ v.status = DosageStatus.not_safe)
    ∧ (v.recommendedHighMg < d → v.status = DosageStatus.not_safe)
    ∧ (∀ st : DosageStatus,
        st = DosageStatus.within_range ∨ st = DosageStatus.not_safe) := by
  obtain ⟨g, hfind, hveq⟩ := validate_ok_elim gs drugName p d v hv
  subst hveq
  obtain ⟨hpm, hlo, hhi, hiff⟩ := validateWith_fields g p d
  refine ⟨?_, ?_, fun st => by cases st <;> simp⟩
  · cases (validateWith g p d).status <;> simp
  · intro hgt
    rw [hhi] at hgt
    rw [status_dichotomy, hiff]
    intro hcon
    exact absurd hcon.2 (not_le.mpr hgt)

/-- Witness for dosage_status_two_valued: a 600 mg dose against the
100–400 mg fixture range is classified not_safe. -/
theorem dosage_status_two_valued_witness :
    (validateWith wG wP 600).status = DosageStatus.not_safe :=
  (dosage_status_two_valued [wG] "amoxicillin" wP 600
      (validateWith wG wP 600) rfl).2.1 (by decide)

/-- C5: when a drug has no entry in the dosage guideline table,
evaluateDosage fails with NotFoundError and never returns any verdict,
in particular no default within_range verdict. -/
theorem dosage_unknown_drug_not_found (c : Catalog) (drugName : String)
    (p : PatientProfile) (d : ℚ)
    (h : findDosageGuideline c.guidelines drugName = none) :
    evaluateDosage c drugName p d = Except.error DocError.NotFoundError
    ∧ ∀ v : DosageVerdict, evaluateDosage c drugName p d ≠ Except.ok v := by
  have h1 : evaluateDosage c drugName p d = Except.error DocError.NotFoundError := by
    unfold evaluateDosage validate
    rw [h]
  exact ⟨h1, fun v hcon => by rw [h1] at hcon; cases hcon⟩

/-- Witness for dosage_unknown_drug_not_found: the empty guideline
table knows no drug. -/
theorem dosage_unknown_drug_not_found_witness :
    evaluateDosage ⟨[], []⟩ "unknowndrug" ⟨30, none, none⟩ 10 =
      Except.error DocError.NotFoundError :=
  (dosage_unknown_drug_not_found ⟨[], []⟩ "unknowndrug" ⟨30, none, none⟩ 10
    rfl).1

/-- C6: with a weight and mg/kg bounds present the recommended range
is mgPerKgLow·weight to mgPerKgHigh·weight with the high bound clamped
to maxDailyMg (under a normal or absent renal function), falling back
to the fixed adult range without a weight; on the section 8 scenario
(5 and 10 mg/kg, 500 mg max, 40 kg, normal renal) the range is
200–400 and 600 mg is not_safe. -/
theorem dosage_weight_based_range (gs : List DosageGuideline)
    (drugName : String) (p : PatientProfile) (d : ℚ) (g : DosageGuideline)
    (hfind : findDosageGuideline gs drugName = some g)
    (hren : p.renalFunction = some RenalFunction.normal ∨
      p.renalFunction = none) :
    validate gs drugName p d = Except.ok (validateWith g p d)
    ∧ (∀ w lo hi : ℚ, p.weightKg = some w → g.mgPerKgLow = some lo →
        g.mgPerKgHigh = some hi →
        (validateWith g p d).recommendedLowMg = lo * w
        ∧ (validateWith g p d).recommendedHighMg = min (hi * w) g.maxDailyMg)
    ∧ (p.weightKg = none →
        (validateWith g p d).recommendedLowMg = g.adultFixedRangeLow
        ∧ (validateWith g p d).recommendedHighMg =
            min g.adultFixedRangeHigh g.maxDailyMg)
    ∧ validate [scenarioGuideline] "drug x" scenarioProfile 600 =
        Except.ok ⟨600, 200, 400, DosageStatus.not_safe,
          "prescribed dose is outside the recommended range"⟩ := by
  have hr : ∀ r : ℚ × ℚ, renalAdjusted g p r = r := by
    rcases hren with h | h <;> intro r <;> simp [renalAdjusted, h]
  obtain ⟨hpm, hlo, hhi, hiff⟩ := validateWith_fields g p d
  refine ⟨?_, ?_, ?_, ?_⟩
  · unfold validate
    rw [hfind]
  · intro w lo hi hw hwlo hwhi
    rw [hlo, hhi, hr]
    have hb : baseRange g p = (lo * w, hi * w) := by
      unfold baseRange
      rw [hw, hwlo, hwhi]
    rw [hb]
    exact ⟨rfl, rfl⟩
  · intro hw
    rw [hlo, hhi, hr]
    have hb : baseRange g p = (g.adultFixedRangeLow, g.adultFixedRangeHigh) := by
      unfold baseRange
      rw [hw]
    rw [hb]
    exact ⟨rfl, rfl⟩
  · have hfind2 : findDosageGuideline [scenarioGuideline] "drug x" =
        some scenarioGuideline := rfl
    unfold validate
    rw [hfind2]
    have hbase : baseRange scenarioGuideline scenarioProfile = (200, 400) := by
      unfold baseRange scenarioGuideline scenarioProfile
      norm_num
    have hren2 : renalAdjusted scenarioGuideline scenarioProfile (200, 400) =
        (200, 400) := by
      unfold renalAdjusted scenarioProfile
      simp
    simp only [validateWith]
    rw [hbase, hren2]
    have hmax : scenarioGuideline.maxDailyMg = 500 := rfl
    rw [hmax]
    rw [if_neg (by norm_num [min_def])]
    norm_num [min_def]

/-- C8: a negative age makes classify fail with InvalidInputError, no
category is ever returned for it, and evaluateAgeSafety surfaces the
same error unchanged for any catalog and drug. -/
theorem negative_age_invalid_input (age : Int) (h : age < 0) :
    classify age = Except.error DocError.InvalidInputError
    ∧ (∀ cat : AgeCategory, classify age ≠ Except.ok cat)
    ∧ (∀ (c : Catalog) (drugName : String) (p : PatientProfile),
        p.age = age →
        evaluateAgeSafety c drugName p =
          Except.error DocError.InvalidInputError) := by
  have h1 : classify age = Except.error DocError.InvalidInputError := by
    unfold classify
    rw [if_pos h]
  refine ⟨h1, ?_, ?_⟩
  · intro cat hcon
    rw [h1] at hcon
    cases hcon
  · intro c dn p hp
    unfold evaluateAgeSafety
    rw [hp, h1]

/-- Witness for negative_age_invalid_input at age -1. -/
theorem negative_age_invalid_input_witness :
    classify (-1) = Except.error DocError.InvalidInputError
    ∧ evaluateAgeSafety ⟨[], []⟩ "aspirin" ⟨-1, none, none⟩ =
        Except.error DocError.InvalidInputError :=
  ⟨(negative_age_invalid_input (-1) (by norm_num)).1,
   (negative_age_invalid_input (-1) (by norm_num)).2.2 ⟨[], []⟩ "aspirin"
     ⟨-1, none, none⟩ rfl⟩

/-- Witness for dosage_weight_based_range on the specification
section 8 scenario itself. -/
theorem dosage_weight_based_range_witness :
    validate [scenarioGuideline] "drug x" scenarioProfile 600 =
      Except.ok ⟨600, 200, 400, DosageStatus.not_safe,
        "prescribed dose is outside the recommended range"⟩ :=
  (dosage_weight_based_range [scenarioGuideline] "drug x" scenarioProfile 600
      scenarioGuideline rfl (Or.inl rfl)).2.2.2

/-- C9: SeverityBadge and RiskIndicator pick their style from the
lowercase of the given string — high red, medium yellow, low green —
and any other string gets the gray default style instead of an error
or a rejection. -/
theorem severity_badge_risk_indicator_colors (s : String) :
    (lowerAscii s = "high" →
        getSeverityColor s = "bg-red-500 text-white"
        ∧ getRiskColor s = "bg-red-500")
    ∧ (lowerAscii s = "medium" →
        getSeverityColor s = "bg-yellow-500 text-white"
        ∧ getRiskColor s = "bg-yellow-500")
    ∧ (lowerAscii s = "low" →
        getSeverityColor s = "bg-green-500 text-white"
        ∧ getRiskColor s = "bg-green-500")
    ∧ (lowerAscii s ≠ "high" → lowerAscii s ≠ "medium" →
        lowerAscii s ≠ "low" →
        getSeverityColor s = "bg-gray-500 text-white"
        ∧ getRiskColor s = "bg-gray-500") := by
  refine ⟨fun h => ?_, fun h => ?_, fun h => ?_, fun h1 h2 h3 => ?_⟩
  · simp [getSeverityColor, getRiskColor, h]
  · simp [getSeverityColor, getRiskColor, h]
  · simp [getSeverityColor, getRiskColor, h]
  · simp [getSeverityColor, getRiskColor, h1, h2, h3]

/-- Witness for severity_badge_risk_indicator_colors: HIGH lowers to
high and renders red; Severe matches nothing and renders gray. -/
theorem severity_badge_risk_indicator_colors_witness :
    getSeverityColor "HIGH" = "bg-red-500 text-white"
    ∧ getRiskColor "Severe" = "bg-gray-500" :=
  ⟨((severity_badge_risk_indicator_colors "HIGH").1 (by decide)).1,
   ((severity_badge_risk_indicator_colors "Severe").2.2.2 (by decide)
     (by decide) (by decide)).2⟩

/-- C10: PrescriptionUpload and DocumentUploader invoke onUpload only
with a non-empty selection — handleUpload performs no invocation when
nothing is chosen, every invocation carries the actual selection, and
the upload button is disabled exactly in the empty state. -/
theorem upload_requires_selection (file : Option String) (files : List String) :
    (file = none →
        prescriptionHandleUpload file = []
        ∧ prescriptionUploadDisabled file = true)
    ∧ (∀ f : String, f ∈ prescriptionHandleUpload file → file = some f)
    ∧ (files = [] →
        documentHandleUpload files = []
        ∧ documentUploadDisabled files = true)
    ∧ (∀ call : List String, call ∈ documentHandleUpload files →
        call = files ∧ call ≠ []) := by
  refine ⟨?_, ?_, ?_, ?_⟩
  · intro h
    subst h
    exact ⟨rfl, rfl⟩
  · intro f hf
    cases file with
    | none => cases hf
    | some g =>
        simp [prescriptionHandleUpload] at hf
        rw [hf]
  · intro h
    subst h
    exact ⟨rfl, rfl⟩
  · intro call hcall
    cases files with
    | nil => simp [documentHandleUpload] at hcall
    | cons x t =>
        simp [documentHandleUpload] at hcall
        subst hcall
        exact ⟨rfl, by simp⟩

/-- Witness for upload_requires_selection in the empty states of both
components. -/
theorem upload_requires_selection_witness :
    prescriptionHandleUpload none = []
    ∧ prescriptionUploadDisabled none = true
    ∧ documentHandleUpload [] = []
    ∧ documentUploadDisabled [] = true :=
  ⟨((upload_requires_selection none []).1 rfl).1,
   ((upload_requires_selection none []).1 rfl).2,
   ((upload_requires_selection none []).2.2.1 rfl).1,
   ((upload_requires_selection none []).2.2.1 rfl).2⟩
